import Mathlib

/-!
Verification of the client-side sensor session object of sensorfw
(src/qt-api/abstractsensor_i.cpp, class AbstractSensorChannelInterface).

The embedding models the private implementation state
(AbstractSensorChannelInterfaceImpl) as an explicit record, and every
control-plane method as a pure function from a session state to the new
session state together with the list of RPC calls issued on the control
channel, in order.  Remote replies (property reads, data-range fetches)
are supplied as oracle arguments, since the remote service is an external
collaborator.
-/

namespace Sensorfw

/-- Error vocabulary of the client (sfwerror.h).  Only `SNoError` and
`SClientSocketError` are produced by the code under study; every other
value, including codes cast from the remote `errorCodeInt` property, is
modelled by `SRemote`. -/
inductive SensorError where
  | SNoError : SensorError
  | SClientSocketError : SensorError
  | SRemote : Nat → SensorError
deriving DecidableEq, Repr

/-- RPC calls issued on the control channel, one constructor per remote
method used by the session object, carrying exactly the arguments the
source marshals into the argument list. -/
inductive RPC where
  | startR : Int → RPC
  | stopR : Int → RPC
  | setIntervalR : Int → Int → RPC
  | setBufferIntervalR : Int → Nat → RPC
  | setBufferSizeR : Int → Nat → RPC
  | setStandbyOverrideR : Int → Bool → RPC
  | setDataRangeIndexR : Int → Int → RPC
  | getAvailableDataRangesR : RPC
  | getCurrentDataRangeR : RPC
deriving DecidableEq, Repr

/-- Fields of AbstractSensorChannelInterfaceImpl.  `interval_` is a C `int`
(modelled as `Int`); `bufferInterval_` and `bufferSize_` are C
`unsigned int` (modelled as `Nat`; no arithmetic is ever performed on
them, they are only stored and marshalled). -/
structure SessionState where
  errorCode : SensorError
  errorString : String
  sessionId : Int
  interval : Int
  bufferInterval : Nat
  bufferSize : Nat
  running : Bool
  standbyOverride : Bool
deriving DecidableEq, Repr

/-- Initial field values set by the AbstractSensorChannelInterfaceImpl
constructor: no error, interval 0, bufferInterval 0, bufferSize 1, not
running, standby override off. -/
def initState (sessionId : Int) : SessionState :=
  { errorCode := .SNoError
    errorString := ""
    sessionId := sessionId
    interval := 0
    bufferInterval := 0
    bufferSize := 1
    running := false
    standbyOverride := false }

/-- setError(errorCode, errorString): record a local error. -/
def setError (s : SessionState) (e : SensorError) (msg : String) : SessionState :=
  { s with errorCode := e, errorString := msg }

/-- clearError(): unconditionally reset the local error state. -/
def clearError (s : SessionState) : SessionState :=
  { s with errorCode := .SNoError, errorString := "" }

/-- Constructor body: initialise the impl state, then try to open the data
channel (socketReader_.initiateConnection(sessionId), whose outcome is the
oracle argument `socketConnected`); on failure record SClientSocketError
with the message from the source. -/
def construct (sessionId : Int) (socketConnected : Bool) : SessionState :=
  if socketConnected then initState sessionId
  else setError (initState sessionId) .SClientSocketError "Socket connection failed."

/-- setInterval(sessionId, value): clearError, then issue the setInterval
RPC.  Does not touch the cached configuration. -/
def setIntervalSession (s : SessionState) (sessionId : Int) (value : Int) :
    SessionState × List RPC :=
  (clearError s, [.setIntervalR sessionId value])

/-- setBufferInterval(sessionId, value): clearError, then issue the
setBufferInterval RPC.  Does not touch the cached configuration. -/
def setBufferIntervalSession (s : SessionState) (sessionId : Int) (value : Nat) :
    SessionState × List RPC :=
  (clearError s, [.setBufferIntervalR sessionId value])

/-- setBufferSize(sessionId, value): clearError, then issue the
setBufferSize RPC.  Does not touch the cached configuration. -/
def setBufferSizeSession (s : SessionState) (sessionId : Int) (value : Nat) :
    SessionState × List RPC :=
  (clearError s, [.setBufferSizeR sessionId value])

/-- setStandbyOverride(sessionId, value): clearError, then issue the
setStandbyOverride RPC.  Does not touch the cached configuration. -/
def setStandbyOverrideSession (s : SessionState) (sessionId : Int) (value : Bool) :
    SessionState × List RPC :=
  (clearError s, [.setStandbyOverrideR sessionId value])

/-- start(sessionId): clearError; if already running return with no RPC;
otherwise set running, issue the blocking start RPC, re-issue the standby
override if it is cached true, then push the cached interval, buffer
interval and buffer size through their sessionId overloads, in that
order. -/
def start (s : SessionState) (sessionId : Int) : SessionState × List RPC :=
  let s0 := clearError s
  if s0.running then (s0, [])
  else
    let s1 := { s0 with running := true }
    let startCall : List RPC := [.startR sessionId]
    let p2 := if s1.standbyOverride then setStandbyOverrideSession s1 sessionId true
              else (s1, [])
    let p3 := setIntervalSession p2.1 sessionId p2.1.interval
    let p4 := setBufferIntervalSession p3.1 sessionId p3.1.bufferInterval
    let p5 := setBufferSizeSession p4.1 sessionId p4.1.bufferSize
    (p5.1, startCall ++ p2.2 ++ p3.2 ++ p4.2 ++ p5.2)

/-- stop(sessionId): clearError; if not running return with no RPC;
otherwise clear running, force the standby override to false remotely,
force the interval to 0 remotely, then issue the blocking stop RPC. -/
def stop (s : SessionState) (sessionId : Int) : SessionState × List RPC :=
  let s0 := clearError s
  if !s0.running then (s0, [])
  else
    let s1 := { s0 with running := false }
    let p2 := setStandbyOverrideSession s1 sessionId false
    let p3 := setIntervalSession p2.1 sessionId 0
    (p3.1, p2.2 ++ p3.2 ++ [.stopR sessionId])

/-- start(): delegate to start(sessionId_) with the stored session id. -/
def startNoArg (s : SessionState) : SessionState × List RPC :=
  start s s.sessionId

/-- stop(): delegate to stop(sessionId_) with the stored session id. -/
def stopNoArg (s : SessionState) : SessionState × List RPC :=
  stop s s.sessionId

/-- setInterval(value): always cache the value; push it through the
sessionId overload (which clears the error and issues the RPC) only while
running. -/
def setIntervalPub (s : SessionState) (value : Int) : SessionState × List RPC :=
  let s1 := { s with interval := value }
  if s1.running then setIntervalSession s1 s1.sessionId value else (s1, [])

/-- setBufferInterval(value): always cache the value; push it through the
sessionId overload only while NOT running. -/
def setBufferIntervalPub (s : SessionState) (value : Nat) : SessionState × List RPC :=
  let s1 := { s with bufferInterval := value }
  if !s1.running then setBufferIntervalSession s1 s1.sessionId value else (s1, [])

/-- setBufferSize(value): always cache the value; push it through the
sessionId overload only while NOT running. -/
def setBufferSizePub (s : SessionState) (value : Nat) : SessionState × List RPC :=
  let s1 := { s with bufferSize := value }
  if !s1.running then setBufferSizeSession s1 s1.sessionId value else (s1, [])

/-- setStandbyOverride(override): always cache the value and always push
it through the sessionId overload, regardless of running state. -/
def setStandbyOverridePub (s : SessionState) (value : Bool) : SessionState × List RPC :=
  let s1 := { s with standbyOverride := value }
  setStandbyOverrideSession s1 s1.sessionId value

/-- interval(): read the remote property (oracle `remote`) while running,
return the cached value while stopped. -/
def intervalGet (s : SessionState) (remote : Int) : Int :=
  if s.running then remote else s.interval

/-- bufferInterval(): read the remote property while running, return the
cached value while stopped. -/
def bufferIntervalGet (s : SessionState) (remote : Nat) : Nat :=
  if s.running then remote else s.bufferInterval

/-- bufferSize(): read the remote property while running, return the
cached value while stopped. -/
def bufferSizeGet (s : SessionState) (remote : Nat) : Nat :=
  if s.running then remote else s.bufferSize

/-- standbyOverride(): read the remote property while running, return the
cached value while stopped. -/
def standbyOverrideGet (s : SessionState) (remote : Bool) : Bool :=
  if s.running then remote else s.standbyOverride

/-- errorCode(): return the local error if one is recorded, otherwise the
remote errorCodeInt property (oracle `remote`).  The method is const: the
session state is returned unchanged. -/
def errorCodeGet (s : SessionState) (remote : SensorError) :
    SensorError × SessionState :=
  (if s.errorCode ≠ .SNoError then s.errorCode else remote, s)

/-- errorString(): return the local message if a local error is recorded,
otherwise the remote errorString property.  Const, like errorCode(). -/
def errorStringGet (s : SessionState) (remote : String) :
    String × SessionState :=
  (if s.errorCode ≠ .SNoError then s.errorString else remote, s)

/-- DataRange: an admissible (min, max, resolution) sensing interval.  The
source stores these as doubles compared field by field with operator ==;
the claims under study only use equality of whole ranges, so the numeric
payload is modelled with `Int`. -/
structure DataRange where
  rangeMin : Int
  rangeMax : Int
  resolution : Int
deriving DecidableEq, Repr

/-- QList::at(i) on a DataRangeList: the source indexes without a bounds
check (QList::at requires 0 <= i < size, otherwise the access is
undefined); the embedding is total, returning none for the out-of-range
case. -/
def qlistAt (l : List DataRange) (i : Int) : Option DataRange :=
  if i < 0 then none else l.get? i.toNat

/-- setDataRangeIndex(i): clearError, send the (sessionId, i) RPC, then
fetch the available ranges (getAvailableDataRanges, a plain RPC) and the
current range (getCurrentDataRange, which clears the error first), both
supplied here by oracles, and return whether ranges.at(i) equals the
current range.  Result, new state and RPC trace, in that order. -/
def setDataRangeIndex (s : SessionState) (i : Int)
    (remoteRanges : List DataRange) (remoteCurrent : DataRange) :
    Option Bool × SessionState × List RPC :=
  let s0 := clearError s
  let s1 := clearError s0
  ((qlistAt remoteRanges i).map (fun r => r == remoteCurrent),
   s1,
   [.setDataRangeIndexR s0.sessionId i, .getAvailableDataRangesR,
    .getCurrentDataRangeR])

/-- Buffered content of the data-channel socket, abstracted to what the
drain loop observes: a number of buffered complete frames followed by
trailing bytes that do not yet form a complete frame.  Frames are
non-empty, so the socket reports bytes available exactly when at least one
frame or at least one trailing byte is buffered. -/
structure SocketBuffer where
  frames : Nat
  trailingBytes : Nat
deriving DecidableEq, Repr

/-- socket()->bytesAvailable() truth value used as the drain loop's while
condition. -/
def hasBytesAvailable (b : SocketBuffer) : Bool :=
  b.frames ≠ 0 || b.trailingBytes ≠ 0

/-- dataReceivedImpl(): the sensor-type-specific hook that tries to
consume one frame; it consumes one complete frame and reports true when
one is buffered, and reports false when only incomplete data remains. -/
def dataReceivedImpl (b : SocketBuffer) : Bool × SocketBuffer :=
  if b.frames = 0 then (false, b)
  else (true, { b with frames := b.frames - 1 })

/-- dataReceived(): the do/while drain loop of the readability slot —
attempt to consume a frame, return when the attempt fails, repeat while
bytes remain available.  Returns the final buffer and the number of
dataReceivedImpl attempts made. -/
def dataReceived (b : SocketBuffer) : SocketBuffer × Nat :=
  match h : dataReceivedImpl b with
  | (false, b1) => (b1, 1)
  | (true, b1) =>
    if hasBytesAvailable b1 then
      let r := dataReceived b1
      (r.1, r.2 + 1)
    else (b1, 1)
termination_by b.frames
decreasing_by
  simp only [dataReceivedImpl] at h
  split at h <;> injection h with h1 h2
  · simp at h1
  · subst h2
    show b.frames - 1 < b.frames
    omega

/-- RPC classifier used to count setInterval calls in a trace. -/
def isSetIntervalCall : RPC → Bool
  | .setIntervalR _ _ => true
  | _ => false

/-- Closed form of the drain loop: it always empties the frame queue,
leaves the trailing bytes untouched, and makes one attempt when no frame
is buffered, f attempts when f frames and no trailing bytes are buffered,
and f + 1 attempts when trailing bytes follow the f frames. -/
lemma dataReceived_closed (f t : Nat) :
    dataReceived ⟨f, t⟩ =
      (⟨0, t⟩, if f = 0 then 1 else if t = 0 then f else f + 1) := by
  induction f with
  | zero =>
    unfold dataReceived
    simp [dataReceivedImpl]
  | succ k ih =>
    unfold dataReceived
    by_cases hk : k = 0
    · subst hk
      by_cases ht : t = 0
      · subst ht
        simp [dataReceivedImpl, hasBytesAvailable]
      · simp [dataReceivedImpl, hasBytesAvailable, ht, ih]
    · by_cases ht : t = 0
      · subst ht
        simp [dataReceivedImpl, hasBytesAvailable, hk, ih]
      · simp [dataReceivedImpl, hasBytesAvailable, hk, ht, ih]

/-- C1: starting a session that is not running sets running to true and
issues, in order, the blocking start RPC, then (only if the cached standby
override is true) setStandbyOverride(sessionId, true), then setInterval,
setBufferInterval and setBufferSize carrying exactly the cached values; in
particular exactly one setInterval RPC appears in the trace, carrying the
cached interval, and the start RPC comes first. -/
theorem C1_start_pushes_cached_config (s : SessionState) (sid : Int)
    (h : s.running = false) :
    (start s sid).1.running = true ∧
    (start s sid).2 =
      [RPC.startR sid] ++
        (if s.standbyOverride then [RPC.setStandbyOverrideR sid true] else []) ++
        [RPC.setIntervalR sid s.interval,
         RPC.setBufferIntervalR sid s.bufferInterval,
         RPC.setBufferSizeR sid s.bufferSize] ∧
    List.filter isSetIntervalCall (start s sid).2 =
      [RPC.setIntervalR sid s.interval] ∧
    (start s sid).2.head? = some (RPC.startR sid) := by
  cases hsb : s.standbyOverride <;>
    simp [start, clearError, setStandbyOverrideSession, setIntervalSession,
      setBufferIntervalSession, setBufferSizeSession, h, hsb, isSetIntervalCall]

/-- Witness for C1 at a concrete stopped session with cached interval 100
and cached standby override true. -/
theorem C1_start_pushes_cached_config_witness :
    ({ initState 7 with interval := 100, standbyOverride := true } : SessionState).running
      = false ∧
    (start { initState 7 with interval := 100, standbyOverride := true } 7).2 =
      [RPC.startR 7, RPC.setStandbyOverrideR 7 true, RPC.setIntervalR 7 100,
       RPC.setBufferIntervalR 7 0, RPC.setBufferSizeR 7 1] := by
  refine ⟨rfl, ?_⟩
  have h := (C1_start_pushes_cached_config
    { initState 7 with interval := 100, standbyOverride := true } 7 rfl).2.1
  simpa using h

/-- C2: setInterval always caches and issues its RPC exactly while
running; setBufferInterval and setBufferSize always cache and issue their
RPC exactly while NOT running; the paired getters read the remote property
while running and the cache while stopped. -/
theorem C2_config_shadowing (s : SessionState) (v : Int) (w u : Nat)
    (ri : Int) (rbi rbs : Nat) :
    (setIntervalPub s v).1.interval = v ∧
    (setIntervalPub s v).2 =
      (if s.running then [RPC.setIntervalR s.sessionId v] else []) ∧
    (setBufferIntervalPub s w).1.bufferInterval = w ∧
    (setBufferIntervalPub s w).2 =
      (if s.running then [] else [RPC.setBufferIntervalR s.sessionId w]) ∧
    (setBufferSizePub s u).1.bufferSize = u ∧
    (setBufferSizePub s u).2 =
      (if s.running then [] else [RPC.setBufferSizeR s.sessionId u]) ∧
    intervalGet s ri = (if s.running then ri else s.interval) ∧
    bufferIntervalGet s rbi = (if s.running then rbi else s.bufferInterval) ∧
    bufferSizeGet s rbs = (if s.running then rbs else s.bufferSize) := by
  cases hr : s.running <;>
    simp [setIntervalPub, setBufferIntervalPub, setBufferSizePub,
      setIntervalSession, setBufferIntervalSession, setBufferSizeSession,
      intervalGet, bufferIntervalGet, bufferSizeGet, clearError, hr]

/-- C3: errorCode() returns the recorded local error whenever one is set,
and queries the remote errorCodeInt property only when none is recorded;
errorString() behaves the same with the local message; both are const, so
a remote read never overwrites the local error, which persists until
clearError() resets it. -/
theorem C3_error_precedence (s : SessionState) (rc : SensorError) (rs : String) :
    (errorCodeGet s rc).1 =
      (if s.errorCode = SensorError.SNoError then rc else s.errorCode) ∧
    (errorStringGet s rs).1 =
      (if s.errorCode = SensorError.SNoError then rs else s.errorString) ∧
    (errorCodeGet s rc).2 = s ∧
    (errorStringGet s rs).2 = s ∧
    (clearError s).errorCode = SensorError.SNoError := by
  by_cases h : s.errorCode = SensorError.SNoError <;>
    simp [errorCodeGet, errorStringGet, clearError, h]

/-- C4 counterexample: calling start() while running DOES have a side
effect on the session state — clearError() runs before the running check,
so a recorded local error is wiped; the post state differs from the pre
state at this concrete input. -/
theorem C4_counterexample :
    (start (setError { initState 3 with running := true }
        SensorError.SClientSocketError "Socket connection failed.") 3).1 ≠
      setError { initState 3 with running := true }
        SensorError.SClientSocketError "Socket connection failed." := by
  decide

/-- C4 amended: calling start() while already running issues no RPCs and
leaves all session state unchanged except the local error state, which is
cleared; symmetrically, stop() while not running issues zero RPCs and only
clears the local error state. -/
theorem C4_idempotent_control (s t : SessionState) (sid tid : Int)
    (h1 : s.running = true) (h2 : t.running = false) :
    (start s sid).2 = [] ∧ (start s sid).1 = clearError s ∧
    (stop t tid).2 = [] ∧ (stop t tid).1 = clearError t := by
  simp [start, stop, clearError, h1, h2]

/-- Witness for C4 at concrete running and never-started sessions. -/
theorem C4_idempotent_control_witness :
    (start { initState 2 with running := true } 2).2 = [] ∧
    (stop (initState 2) 2).2 = [] :=
  ⟨(C4_idempotent_control { initState 2 with running := true } (initState 2) 2 2
      rfl rfl).1,
   (C4_idempotent_control { initState 2 with running := true } (initState 2) 2 2
      rfl rfl).2.2.1⟩

/-- C5 counterexample: setInterval called while stopped does NOT clear a
previously recorded local error — it only caches the value, since the
clearError lives in the sessionId overload, which is reached only while
running. -/
theorem C5_counterexample :
    (setIntervalPub (setError (initState 5) SensorError.SClientSocketError
        "Socket connection failed.") 10).1.errorCode ≠ SensorError.SNoError := by
  decide

/-- C5 amended: each mutator clears the prior local error exactly when it
issues its RPC — setInterval clears and issues only while running,
setBufferInterval and setBufferSize clear and issue only while stopped,
and setStandbyOverride always issues and always clears. -/
theorem C5_mutators_clear_error_iff_rpc (s : SessionState) (v : Int)
    (w u : Nat) (b : Bool) :
    (setIntervalPub s v).1.errorCode =
      (if s.running then SensorError.SNoError else s.errorCode) ∧
    (setIntervalPub s v).2 =
      (if s.running then [RPC.setIntervalR s.sessionId v] else []) ∧
    (setBufferIntervalPub s w).1.errorCode =
      (if s.running then s.errorCode else SensorError.SNoError) ∧
    (setBufferIntervalPub s w).2 =
      (if s.running then [] else [RPC.setBufferIntervalR s.sessionId w]) ∧
    (setBufferSizePub s u).1.errorCode =
      (if s.running then s.errorCode else SensorError.SNoError) ∧
    (setBufferSizePub s u).2 =
      (if s.running then [] else [RPC.setBufferSizeR s.sessionId u]) ∧
    (setStandbyOverridePub s b).1.errorCode = SensorError.SNoError ∧
    (setStandbyOverridePub s b).2 = [RPC.setStandbyOverrideR s.sessionId b] := by
  cases hr : s.running <;>
    simp [setIntervalPub, setBufferIntervalPub, setBufferSizePub,
      setStandbyOverridePub, setIntervalSession, setBufferIntervalSession,
      setBufferSizeSession, setStandbyOverrideSession, clearError, hr]

/-- C6: setDataRangeIndex(i) puts the (sessionId, i) RPC first in its
trace, followed by the two verification fetches, and returns true exactly
when position i of the freshly fetched range list equals the freshly
fetched current range. -/
theorem C6_setDataRangeIndex_verifies (s : SessionState) (i : Int)
    (rs : List DataRange) (cur : DataRange)
    (h0 : 0 ≤ i) (h1 : i.toNat < rs.length) :
    ((setDataRangeIndex s i rs cur).1 = some true ↔ rs.get ⟨i.toNat, h1⟩ = cur) ∧
    (setDataRangeIndex s i rs cur).2.2 =
      [RPC.setDataRangeIndexR s.sessionId i, RPC.getAvailableDataRangesR,
       RPC.getCurrentDataRangeR] := by
  constructor
  · simp [setDataRangeIndex, qlistAt, if_neg (not_lt.mpr h0),
      List.getElem?_eq_getElem h1, List.get_eq_getElem]
  · simp [setDataRangeIndex, clearError]

/-- Witness for C6: index 1 of a two-element range list matches the
current range, so the call returns true. -/
theorem C6_setDataRangeIndex_verifies_witness :
    (setDataRangeIndex (initState 2) 1
        [⟨0, 1, 1⟩, ⟨0, 2, 1⟩] ⟨0, 2, 1⟩).1 = some true :=
  ((C6_setDataRangeIndex_verifies (initState 2) 1 [⟨0, 1, 1⟩, ⟨0, 2, 1⟩]
      ⟨0, 2, 1⟩ (by decide) (by decide)).1).mpr rfl

/-- C7: when the data channel cannot be opened during construction, the
constructor records the connection error locally, so errorCode() and
errorString() report it immediately, before any control call, whatever the
remote properties would say; the object still accepts control-plane
mutators, which issue their RPCs normally. -/
theorem C7_construct_records_connection_error (sid : Int) (rc : SensorError)
    (rs : String) (b : Bool) :
    (errorCodeGet (construct sid false) rc).1 = SensorError.SClientSocketError ∧
    (errorStringGet (construct sid false) rs).1 = "Socket connection failed." ∧
    (construct sid false).running = false ∧
    (setStandbyOverridePub (construct sid false) b).2 =
      [RPC.setStandbyOverrideR sid b] := by
  simp [construct, initState, setError, errorCodeGet, errorStringGet,
    setStandbyOverridePub, setStandbyOverrideSession, clearError]

/-- C8: on a readability notification (some bytes are available) with only
complete frames buffered, the drain loop makes exactly one consume attempt
per buffered frame, consumes them all, and exits with zero bytes
available. -/
theorem C8_drain_loop_count (b : SocketBuffer)
    (hp : b.trailingBytes = 0) (hn : hasBytesAvailable b = true) :
    (dataReceived b).2 = b.frames ∧
    (dataReceived b).1.frames = 0 ∧
    hasBytesAvailable (dataReceived b).1 = false := by
  obtain ⟨f, t⟩ := b
  simp only at hp
  subst hp
  have hf : f ≠ 0 := by
    simpa [hasBytesAvailable] using hn
  simp [dataReceived_closed, hasBytesAvailable, hf]

/-- Witness for C8: three buffered frames, no trailing bytes — exactly
three consume attempts. -/
theorem C8_drain_loop_count_witness :
    (⟨3, 0⟩ : SocketBuffer).trailingBytes = 0 ∧
    hasBytesAvailable ⟨3, 0⟩ = true ∧
    (dataReceived ⟨3, 0⟩).2 = 3 :=
  ⟨rfl, rfl, (C8_drain_loop_count ⟨3, 0⟩ rfl rfl).1⟩

/-- C9: stop() on a running session leaves the cached standby override
untouched (the remote force-to-false goes through the sessionId overload,
which does not write the cache), so a preference cached true before the
stop survives it and is re-issued by the next start. -/
theorem C9_stop_preserves_standby_cache (s : SessionState) (sid sid2 : Int)
    (h : s.running = true) (hsb : s.standbyOverride = true) :
    (stop s sid).1.standbyOverride = s.standbyOverride ∧
    RPC.setStandbyOverrideR sid false ∈ (stop s sid).2 ∧
    RPC.setStandbyOverrideR sid2 true ∈ (start (stop s sid).1 sid2).2 := by
  simp [stop, start, clearError, setStandbyOverrideSession, setIntervalSession,
    setBufferIntervalSession, setBufferSizeSession, h, hsb]

/-- Witness for C9 at a concrete running session with the override cached
true: the next start re-issues setStandbyOverride(4, true). -/
theorem C9_stop_preserves_standby_cache_witness :
    RPC.setStandbyOverrideR 4 true ∈
      (start (stop { initState 3 with running := true, standbyOverride := true } 3).1
        4).2 :=
  (C9_stop_preserves_standby_cache
    { initState 3 with running := true, standbyOverride := true } 3 4 rfl rfl).2.2

/-- C10: under the precondition 0 <= i < length of the fetched range list,
the unchecked QList::at access in setDataRangeIndex is in bounds, so the
out-of-range branch of the total embedding is unreachable and a defined
boolean verdict is always produced. -/
theorem C10_index_access_in_bounds (s : SessionState) (i : Int)
    (rs : List DataRange) (cur : DataRange)
    (h0 : 0 ≤ i) (h1 : i.toNat < rs.length) :
    ((setDataRangeIndex s i rs cur).1).isSome = true := by
  simp [setDataRangeIndex, qlistAt, if_neg (not_lt.mpr h0),
    List.getElem?_eq_getElem h1]

/-- Witness for C10: a one-element list accessed at index 0 yields a
defined verdict. -/
theorem C10_index_access_in_bounds_witness :
    ((setDataRangeIndex (initState 9) 0 [⟨1, 2, 3⟩] ⟨9, 9, 9⟩).1).isSome = true :=
  C10_index_access_in_bounds (initState 9) 0 [⟨1, 2, 3⟩] ⟨9, 9, 9⟩
    (by decide) (by decide)
